import Mathlib

/-!
Shallow embedding of the resumable podcast playback engine in `src/bot.js`
(the full variant: RSS refresh, playback state, `playCurrent` with
`playLock` and startup watchdog, the `voiceStateUpdate` presence handler,
and the skip/restart/pause/resume command handlers).

Timers and stream callbacks are modelled as explicit events: a `setTimeout`
arms a watchdog record carrying the segment generation and its closure's
`gotData` flag; the ffmpeg `stdout.once('data')` callback is the `dataEvt`
event; the deferred `loopPlay` retries are the `loopTimer` event.  Spawned
ffmpeg subprocesses get consecutive numeric ids; `liveProcs` is the list of
ids spawned and not yet killed.  JavaScript numbers used for times and
offsets are modelled as `Int`; array indices as `Nat` (the handlers that
advance the cursor only run with a non-empty episode list, where `% length`
agrees with the source).
-/

namespace HLBot

/-- One playable item as produced by `fetchEpisodes` in the source. -/
structure Episode where
  title : String
  url : String
  pubDate : Int
deriving Repr, DecidableEq

/-- Status of the discord.js audio player as read by the handlers. -/
inductive PlayerStatus where
  | Idle
  | Playing
  | Paused
deriving Repr, DecidableEq

/-- An armed startup-watchdog timer: the segment generation of the
`playCurrent` call that armed it, and that call's closure-local `gotData`
flag as of the moment the timer fires. -/
structure Watchdog where
  seg : Nat
  gotData : Bool
deriving Repr, DecidableEq

/-- The module-level mutable playback state of `src/bot.js`, plus the
bookkeeping (`nextProcId`, `liveProcs`, `watchdogs`, `nextSeg`,
`lastSpawnOffsetMs`) that makes spawned subprocesses and armed timers
observable in the model. -/
structure BotState where
  episodes : List Episode
  episodeIndex : Nat
  hasStartedPlayback : Bool
  isPausedDueToEmpty : Bool
  resumeOffsetMs : Int
  startedAtMs : Int
  ffmpegProc : Option Nat
  currentEpisode : Option Episode
  playLock : Bool
  playerStatus : PlayerStatus
  nextProcId : Nat
  liveProcs : List Nat
  watchdogs : List Watchdog
  nextSeg : Nat
  lastSpawnOffsetMs : Option Int
deriving Repr, DecidableEq

/-- Initial module-level state at process start. -/
def initialState : BotState :=
  { episodes := []
    episodeIndex := 0
    hasStartedPlayback := false
    isPausedDueToEmpty := false
    resumeOffsetMs := 0
    startedAtMs := 0
    ffmpegProc := none
    currentEpisode := none
    playLock := false
    playerStatus := PlayerStatus.Idle
    nextProcId := 0
    liveProcs := []
    watchdogs := []
    nextSeg := 0
    lastSpawnOffsetMs := none }

/-- Five-minute staleness threshold `RESUME_RESTART_THRESHOLD_MS` from the
source. -/
def RESUME_RESTART_THRESHOLD_MS : Int := 300000

/-- JavaScript `a || b` on possibly-missing strings: an empty string is
falsy and falls through to the right operand. -/
def jsOrStr : Option String → Option String → Option String
  | some s, b => if s = "" then b else some s
  | none, b => b

/-- One raw RSS feed item as seen by `fetchEpisodes` before mapping. -/
structure RawItem where
  title : Option String
  enclosureUrl : Option String
  link : Option String
  guid : Option String
  pubDate : Option Int
deriving Repr, DecidableEq

/-- Source: `it?.enclosure?.url || it?.link || it?.guid`. -/
def itemUrl (it : RawItem) : Option String :=
  jsOrStr it.enclosureUrl (jsOrStr it.link it.guid)

/-- Source: `it?.title || 'Untitled'`. -/
def itemTitle (it : RawItem) : String :=
  match it.title with
  | some t => if t = "" then "Untitled" else t
  | none => "Untitled"

/-- Source: `it?.pubDate ? new Date(it.pubDate).getTime() : 0`. -/
def itemPubDate (it : RawItem) : Int :=
  it.pubDate.getD 0

/-- Stable insertion of an episode into a pubDate-ascending list (an
earlier element goes before later elements with an equal key, matching the
stable `Array.prototype.sort` of the source). -/
def insertByDate (x : Episode) : List Episode → List Episode
  | [] => [x]
  | y :: ys => if x.pubDate ≤ y.pubDate then x :: y :: ys else y :: insertByDate x ys

/-- Source: `items.sort((a, b) => a.pubDate - b.pubDate)` — ascending by
publish time. -/
def sortByDate : List Episode → List Episode
  | [] => []
  | x :: xs => insertByDate x (sortByDate xs)

/-- The map/filter/sort pipeline of `fetchEpisodes`: map raw items to
`{title, url, pubDate}`, keep those whose url is a string starting with
`http`, sort ascending by `pubDate`. -/
def processItems (raw : List RawItem) : List Episode :=
  sortByDate (raw.filterMap (fun it =>
    match itemUrl it with
    | some u =>
        if u.startsWith "http" then
          some { title := itemTitle it, url := u, pubDate := itemPubDate it }
        else none
    | none => none))

/-- Source `fetchEpisodes`: `if (items.length) { episodes = items; }` — a
non-empty processed result replaces the collection wholesale, an empty one
is ignored; the cursor is untouched in both cases. -/
def fetchEpisodes (raw : List RawItem) (st : BotState) : BotState :=
  let items := processItems raw
  if items.length = 0 then st else { st with episodes := items }

/-- Episode selection of `playCurrent`:
`episodes[episodeIndex % episodes.length]`. -/
def currentEp (eps : List Episode) (cursor : Nat) : Option Episode :=
  eps[cursor % eps.length]?

/-- Cursor advance used by the Idle/error handlers, the watchdog callback
and `handleSkip`: `episodeIndex = (episodeIndex + 1) % episodes.length`. -/
def advanceCursor (len cursor : Nat) : Nat :=
  (cursor + 1) % len

/-- Placeholder episode for the (unreachable) lookup miss on a non-empty
list. -/
def defaultEpisode : Episode :=
  { title := "Untitled", url := "", pubDate := 0 }

/-- Source: `try { ffmpegProc?.kill('SIGKILL'); } catch {}` — removes the
current handle's process from the live set; a no-op when the handle is
absent.  The handle itself is nulled separately, where the source does. -/
def killProc (st : BotState) : BotState :=
  match st.ffmpegProc with
  | some pid => { st with liveProcs := st.liveProcs.erase pid }
  | none => st

/-- Source `playCurrent` (the async body up to `player.play`): drop the
call when `playLock` is held; otherwise take the lock, bail out (releasing
it) when the episode list is empty, select the current episode, fetch the
remote stream (`fetchOk` distinguishes a successful `axiosStream` from a
throw), spawn ffmpeg at `resumeOffsetMs`, arm the startup watchdog, hand
the stream to the player, clear the empty-pause flag, release the lock.  On
a fetch error the catch block resets the offset, advances the cursor and
schedules a retry. -/
def playCurrent (fetchOk : Bool) (st : BotState) : BotState :=
  if st.playLock then st
  else
    let locked := { st with playLock := true }
    if locked.episodes.length = 0 then
      { locked with playLock := false }
    else
      let ep := (currentEp locked.episodes locked.episodeIndex).getD defaultEpisode
      let sel := { locked with currentEpisode := some ep }
      if fetchOk then
        { sel with
            ffmpegProc := some sel.nextProcId
            nextProcId := sel.nextProcId + 1
            liveProcs := sel.liveProcs ++ [sel.nextProcId]
            lastSpawnOffsetMs := some sel.resumeOffsetMs
            watchdogs := sel.watchdogs ++ [{ seg := sel.nextSeg, gotData := false }]
            nextSeg := sel.nextSeg + 1
            playerStatus := PlayerStatus.Playing
            isPausedDueToEmpty := false
            playLock := false }
      else
        { sel with
            resumeOffsetMs := 0
            episodeIndex := advanceCursor sel.episodes.length sel.episodeIndex
            playLock := false }

/-- Source `loopPlay`: `if (!hasStartedPlayback || isPausedDueToEmpty)
return; playCurrent()`. -/
def loopPlay (fetchOk : Bool) (st : BotState) : BotState :=
  if st.hasStartedPlayback = false ∨ st.isPausedDueToEmpty = true then st
  else playCurrent fetchOk st

/-- Source `player.on(AudioPlayerStatus.Idle)`: on natural end of stream
(unless paused due to empty) reset the offset and advance the cursor; the
deferred `loopPlay` is a separate `loopTimer` event. -/
def playerIdle (st : BotState) : BotState :=
  if st.isPausedDueToEmpty then st
  else
    { st with
        resumeOffsetMs := 0
        episodeIndex := advanceCursor st.episodes.length st.episodeIndex }

/-- Source `player.on('error')`: same recovery as natural end. -/
def playerError (st : BotState) : BotState :=
  if st.isPausedDueToEmpty then st
  else
    { st with
        resumeOffsetMs := 0
        episodeIndex := advanceCursor st.episodes.length st.episodeIndex }

/-- Elapsed-time computation shared by the pause paths:
`Math.max(0, Date.now() - (startedAtMs || Date.now()))`. -/
def elapsedSinceStart (now : Int) (st : BotState) : Int :=
  max 0 (now - (if st.startedAtMs = 0 then now else st.startedAtMs))

/-- The `voiceStateUpdate` handler: ignore events for other channels; on an
empty channel while the player is playing, accumulate elapsed time, set the
empty-pause flag, pause the player and kill the pipeline; on a join, either
start playback for the first time, or resume/restart according to
`resumeOffsetMs >= RESUME_RESTART_THRESHOLD_MS`. -/
def voiceStateUpdate (targetId : String) (chanId : Option String) (humans : Nat)
    (now : Int) (fetchOk : Bool) (st : BotState) : BotState :=
  match chanId with
  | none => st
  | some cid =>
    if cid = targetId then
      if humans = 0 then
        if st.playerStatus = PlayerStatus.Playing then
          let st1 :=
            { st with
                resumeOffsetMs := st.resumeOffsetMs + elapsedSinceStart now st
                isPausedDueToEmpty := true
                playerStatus := PlayerStatus.Paused }
          { killProc st1 with ffmpegProc := none }
        else st
      else
        if st.hasStartedPlayback = false then
          loopPlay fetchOk { st with hasStartedPlayback := true }
        else
          if st.isPausedDueToEmpty then
            if RESUME_RESTART_THRESHOLD_MS ≤ st.resumeOffsetMs then
              playCurrent fetchOk
                { st with resumeOffsetMs := 0, isPausedDueToEmpty := false }
            else
              playCurrent fetchOk { st with isPausedDueToEmpty := false }
          else
            if st.playerStatus = PlayerStatus.Paused then
              if RESUME_RESTART_THRESHOLD_MS ≤ st.resumeOffsetMs then
                playCurrent fetchOk { st with resumeOffsetMs := 0 }
              else
                playCurrent fetchOk st
            else st
    else st

/-- Source `handleSkip` (also the Skip button): no-op with a reply when no
episodes are loaded; otherwise reset the offset, advance the cursor, start
the next segment. -/
def handleSkip (fetchOk : Bool) (st : BotState) : BotState :=
  if st.episodes.length = 0 then st
  else
    playCurrent fetchOk
      { st with
          resumeOffsetMs := 0
          episodeIndex := advanceCursor st.episodes.length st.episodeIndex }

/-- Source `handleRestart` (also the Restart button): no-op when nothing
was ever selected; otherwise reset the offset and restart the current
episode. -/
def handleRestart (fetchOk : Bool) (st : BotState) : BotState :=
  match st.currentEpisode with
  | none => st
  | some _ => playCurrent fetchOk { st with resumeOffsetMs := 0 }

/-- Source `handlePause` (also the Pause button): no-op unless playing;
otherwise accumulate elapsed time, set the pause flag (the source reuses
`isPausedDueToEmpty`), pause the player and kill the pipeline. -/
def handlePause (now : Int) (st : BotState) : BotState :=
  if st.playerStatus = PlayerStatus.Playing then
    let st1 :=
      { st with
          resumeOffsetMs := st.resumeOffsetMs + elapsedSinceStart now st
          isPausedDueToEmpty := true
          playerStatus := PlayerStatus.Paused }
    { killProc st1 with ffmpegProc := none }
  else st

/-- Source `handleResume` (also the Resume button): no-op when already
playing and not flagged paused; otherwise clear the flag and restart the
pipeline at the saved offset. -/
def handleResume (fetchOk : Bool) (st : BotState) : BotState :=
  if st.playerStatus = PlayerStatus.Playing ∧ st.isPausedDueToEmpty = false then st
  else playCurrent fetchOk { st with isPausedDueToEmpty := false }

/-- The `ffmpegProc.stdout.once('data')` callback of the segment with
generation `seg`: sets the closure's `gotData`, clears that segment's
watchdog timer and records `startedAtMs = Date.now()`. -/
def firstData (seg : Nat) (now : Int) (st : BotState) : BotState :=
  { st with
      watchdogs := st.watchdogs.filter (fun w => w.seg ≠ seg)
      startedAtMs := now }

/-- The watchdog timer of segment `seg` elapsing: the single-shot timer is
consumed; its callback acts only when its closure's `gotData` is still
false and `isPausedDueToEmpty` is not set — then it kills the *current*
`ffmpegProc` (without nulling the handle, as in the source), resets the
offset and advances the cursor. -/
def fireWatchdog (seg : Nat) (st : BotState) : BotState :=
  match st.watchdogs.find? (fun w => w.seg == seg) with
  | none => st
  | some w =>
    let st1 := { st with watchdogs := st.watchdogs.filter (fun x => x.seg ≠ seg) }
    if w.gotData = false ∧ st1.isPausedDueToEmpty = false then
      { killProc st1 with
          resumeOffsetMs := 0
          episodeIndex := advanceCursor st1.episodes.length st1.episodeIndex }
    else st1

/-- Discrete event callbacks that mutate the playback state. -/
inductive Event where
  | voiceUpdate (chanId : Option String) (humans : Nat) (now : Int) (fetchOk : Bool)
  | idleEvt
  | errorEvt
  | skipCmd (fetchOk : Bool)
  | restartCmd (fetchOk : Bool)
  | pauseCmd (now : Int)
  | resumeCmd (fetchOk : Bool)
  | watchdogFire (seg : Nat)
  | dataEvt (seg : Nat) (now : Int)
  | loopTimer (fetchOk : Bool)
  | feedRefresh (raw : List RawItem)

/-- One event-loop callback running to completion. -/
def step (targetId : String) (e : Event) (st : BotState) : BotState :=
  match e with
  | Event.voiceUpdate chanId humans now fetchOk =>
      voiceStateUpdate targetId chanId humans now fetchOk st
  | Event.idleEvt => playerIdle st
  | Event.errorEvt => playerError st
  | Event.skipCmd fetchOk => handleSkip fetchOk st
  | Event.restartCmd fetchOk => handleRestart fetchOk st
  | Event.pauseCmd now => handlePause now st
  | Event.resumeCmd fetchOk => handleResume fetchOk st
  | Event.watchdogFire seg => fireWatchdog seg st
  | Event.dataEvt seg now => firstData seg now st
  | Event.loopTimer fetchOk => loopPlay fetchOk st
  | Event.feedRefresh raw => fetchEpisodes raw st

end HLBot

namespace HLBot

/-! Concrete episodes and traces used by counterexamples and witnesses. -/

/-- Episode A of the two-episode test feed. -/
def epA : Episode := { title := "A", url := "http://a", pubDate := 1 }

/-- Episode B of the two-episode test feed. -/
def epB : Episode := { title := "B", url := "http://b", pubDate := 2 }

/-- State after the RSS feed loaded `[A, B]`. -/
def stLoaded : BotState := { initialState with episodes := [epA, epB] }

/-- First listener joins at t = 1000: playback starts on A at offset 0,
pipeline 0 is spawned and watchdog segment 0 armed. -/
def stJoined : BotState := step "T" (Event.voiceUpdate (some "T") 1 1000 true) stLoaded

/-- First audio bytes of segment 0 arrive at t = 1000: the watchdog is
cleared and `startedAtMs` recorded. -/
def stPlayingA : BotState := step "T" (Event.dataEvt 0 1000) stJoined

/-- Channel becomes empty at t = 601000 after 600000 ms of playback:
paused-due-to-empty with `resumeOffsetMs = 600000`. -/
def stPausedLate : BotState := step "T" (Event.voiceUpdate (some "T") 0 601000 true) stPlayingA

/-- A listener rejoins at t = 601001, a single millisecond after the pause
began. -/
def stRejoin : BotState := step "T" (Event.voiceUpdate (some "T") 1 601001 true) stPausedLate

/-- Channel becomes empty at t = 11000 after 10000 ms of playback:
paused-due-to-empty with `resumeOffsetMs = 10000`. -/
def stPausedShort : BotState := step "T" (Event.voiceUpdate (some "T") 0 11000 true) stPlayingA

/-- Skip issued while segment 0 is still Starting (no first bytes yet):
its watchdog is still armed when segment 1 begins. -/
def stSkipEarly : BotState := handleSkip true stJoined

/-- C1 counterexample: the code decides resume-vs-restart by comparing the
accumulated `resumeOffsetMs` against the threshold, not the paused
duration.  Playback of episode A accumulates 600000 ms, the channel
empties at t = 601000 and a listener rejoins at t = 601001 — a paused
duration of 1 ms, far below the 300000 ms threshold — yet the handler
resets the offset to 0 and restarts the pipeline from the beginning
instead of resuming at the saved offset 600000. -/
theorem c1_staleness_counterexample :
    stPausedLate.isPausedDueToEmpty = true ∧
    stPausedLate.resumeOffsetMs = 600000 ∧
    ((601001 : Int) - 601000 < RESUME_RESTART_THRESHOLD_MS) ∧
    stRejoin = step "T" (Event.voiceUpdate (some "T") 1 601001 true) stPausedLate ∧
    stRejoin.resumeOffsetMs = 0 ∧
    stRejoin.lastSpawnOffsetMs = some 0 := by
  refine ⟨rfl, rfl, by decide, rfl, rfl, rfl⟩

/-- C2 (code bug): a skip issued while episode A is playing spawns the
pipeline for episode B without killing pipeline 0 first — afterwards both
subprocess handles 0 and 1 are live at once, violating the
at-most-one-live-pipeline invariant. -/
theorem c2_skip_leaves_two_live_pipelines :
    stPlayingA.playerStatus = PlayerStatus.Playing ∧
    stPlayingA.liveProcs = [0] ∧
    (handleSkip true stPlayingA).liveProcs = [0, 1] ∧
    (handleSkip true stPlayingA).ffmpegProc = some 1 := by
  refine ⟨rfl, rfl, rfl, rfl⟩

/-- C3 (code bug): a skip issued while segment 0 is still Starting leaves
segment 0's startup watchdog armed after the segment has ended; when that
stale timer fires it kills segment 1's pipeline (handle 1), resets the
offset and advances the queue out from under the unrelated new segment. -/
theorem c3_stale_watchdog_fires_into_next_segment :
    Watchdog.mk 0 false ∈ stSkipEarly.watchdogs ∧
    stSkipEarly.ffmpegProc = some 1 ∧
    stSkipEarly.liveProcs = [0, 1] ∧
    (fireWatchdog 0 stSkipEarly).liveProcs = [0] ∧
    (fireWatchdog 0 stSkipEarly).episodeIndex ≠ stSkipEarly.episodeIndex ∧
    (fireWatchdog 0 stSkipEarly).resumeOffsetMs = 0 := by
  refine ⟨by decide, rfl, rfl, rfl, by decide, rfl⟩

/-- C9: while a start-playback operation holds `playLock`, any concurrent
`playCurrent` call returns immediately with the state untouched — no
second pipeline is spawned and nothing is mutated. -/
theorem c9_playlock_drops_concurrent_start (fetchOk : Bool) (st : BotState)
    (h : st.playLock = true) :
    playCurrent fetchOk st = st := by
  unfold playCurrent
  rw [if_pos h]

/-- C9 witness: a concrete locked state is returned unchanged. -/
theorem c9_playlock_drops_concurrent_start_witness :
    playCurrent true { initialState with playLock := true }
      = { initialState with playLock := true } :=
  c9_playlock_drops_concurrent_start true { initialState with playLock := true } rfl

/-- C10: a `voiceStateUpdate` whose affected channel is missing or is not
the configured target voice channel leaves the whole playback state
unchanged. -/
theorem c10_other_channel_noop (target cid : String) (chanId : Option String)
    (humans : Nat) (now : Int) (fetchOk : Bool) (st : BotState)
    (h : chanId = none ∨ (chanId = some cid ∧ cid ≠ target)) :
    voiceStateUpdate target chanId humans now fetchOk st = st := by
  rcases h with h | ⟨h1, h2⟩
  · rw [h]; rfl
  · rw [h1]
    unfold voiceStateUpdate
    simp [h2]

/-- C10 witness: an update for channel `X` while the target is `T` is a
no-op on the initial state. -/
theorem c10_other_channel_noop_witness :
    voiceStateUpdate "T" (some "X") 1 0 true initialState = initialState :=
  c10_other_channel_noop "T" "X" (some "X") 1 0 true initialState
    (Or.inr ⟨rfl, by decide⟩)

end HLBot

namespace HLBot

/-- C4: when the watchdog of segment `seg` fires after the segment already
left Starting — either its first bytes arrived (so its timer was cleared,
or hypothetically its `gotData` closure flag is set) or the state is
paused-due-to-empty — the callback is a no-op: no queue advance, no offset
reset, no pipeline kill. -/
theorem c4_watchdog_noop_after_segment_left_starting (seg : Nat) (st : BotState)
    (w : Watchdog)
    (h : st.watchdogs.find? (fun x => x.seg == seg) = none
         ∨ (st.watchdogs.find? (fun x => x.seg == seg) = some w ∧
            (w.gotData = true ∨ st.isPausedDueToEmpty = true))) :
    (fireWatchdog seg st).episodeIndex = st.episodeIndex ∧
    (fireWatchdog seg st).resumeOffsetMs = st.resumeOffsetMs ∧
    (fireWatchdog seg st).liveProcs = st.liveProcs ∧
    (fireWatchdog seg st).ffmpegProc = st.ffmpegProc ∧
    (fireWatchdog seg st).episodes = st.episodes := by
  unfold fireWatchdog
  rcases h with h | ⟨h1, h2⟩
  · rw [h]
    exact ⟨rfl, rfl, rfl, rfl, rfl⟩
  · rw [h1]
    rcases h2 with h2 | h2 <;> simp [h2]

/-- C4 witness: a paused-due-to-empty state with segment 0's watchdog still
armed; the fire is a no-op on queue, offset and pipeline. -/
theorem c4_watchdog_noop_witness :
    (fireWatchdog 0 { initialState with
        isPausedDueToEmpty := true
        watchdogs := [{ seg := 0, gotData := false }] }).episodeIndex
      = ({ initialState with
        isPausedDueToEmpty := true
        watchdogs := [{ seg := 0, gotData := false }] } : BotState).episodeIndex ∧
    (fireWatchdog 0 { initialState with
        isPausedDueToEmpty := true
        watchdogs := [{ seg := 0, gotData := false }] }).resumeOffsetMs
      = ({ initialState with
        isPausedDueToEmpty := true
        watchdogs := [{ seg := 0, gotData := false }] } : BotState).resumeOffsetMs ∧
    (fireWatchdog 0 { initialState with
        isPausedDueToEmpty := true
        watchdogs := [{ seg := 0, gotData := false }] }).liveProcs
      = ({ initialState with
        isPausedDueToEmpty := true
        watchdogs := [{ seg := 0, gotData := false }] } : BotState).liveProcs ∧
    (fireWatchdog 0 { initialState with
        isPausedDueToEmpty := true
        watchdogs := [{ seg := 0, gotData := false }] }).ffmpegProc
      = ({ initialState with
        isPausedDueToEmpty := true
        watchdogs := [{ seg := 0, gotData := false }] } : BotState).ffmpegProc ∧
    (fireWatchdog 0 { initialState with
        isPausedDueToEmpty := true
        watchdogs := [{ seg := 0, gotData := false }] }).episodes
      = ({ initialState with
        isPausedDueToEmpty := true
        watchdogs := [{ seg := 0, gotData := false }] } : BotState).episodes :=
  c4_watchdog_noop_after_segment_left_starting 0
    { initialState with
        isPausedDueToEmpty := true
        watchdogs := [{ seg := 0, gotData := false }] }
    { seg := 0, gotData := false }
    (Or.inr ⟨rfl, Or.inr rfl⟩)

/-- C5: a feed refresh whose processed result is empty leaves the stored
collection and the cursor (indeed the whole state) unchanged, and a
non-empty result replaces the collection wholesale in a single swap,
leaving the cursor and everything else untouched. -/
theorem c5_feed_refresh_swap (raw : List RawItem) (st : BotState) :
    fetchEpisodes raw st =
      { st with
          episodes := if processItems raw = [] then st.episodes else processItems raw } := by
  unfold fetchEpisodes
  by_cases h : (processItems raw).length = 0
  · rw [if_pos h, if_pos (List.length_eq_zero.mp h)]
  · rw [if_neg h, if_neg (fun hh => h (by rw [hh]; rfl))]

end HLBot

namespace HLBot

/-- Iterating the cursor advance `k ≥ 1` times moves the cursor to
`(i + k) % n`. -/
theorem advanceCursor_iterate (n i k : Nat) (hk : 1 ≤ k) :
    (advanceCursor n)^[k] i = (i + k) % n := by
  induction k with
  | zero => exact absurd hk (by omega)
  | succ m ih =>
    cases m with
    | zero => simp [advanceCursor]
    | succ m0 =>
      rw [Function.iterate_succ_apply', ih (by omega)]
      unfold advanceCursor
      rw [Nat.mod_add_mod, Nat.add_assoc]

/-- C6: for a non-empty collection of length `n`, each `advance` moves the
cursor to `(cursor + 1) % n`, `n` consecutive advances bring the cursor
back to `cursor % n` — the very slot `current()` reads — so `current()`
yields the same episode again, and no smaller positive number of advances
returns the cursor to that slot. -/
theorem c6_queue_cycles (eps : List Episode) (i k : Nat)
    (h : eps.length ≠ 0) (hk1 : 0 < k) (hk2 : k < eps.length) :
    advanceCursor eps.length i = (i + 1) % eps.length ∧
    (advanceCursor eps.length)^[eps.length] i = i % eps.length ∧
    currentEp eps ((advanceCursor eps.length)^[eps.length] i) = currentEp eps i ∧
    (advanceCursor eps.length)^[k] i ≠ i % eps.length := by
  have hpos : 0 < eps.length := Nat.pos_of_ne_zero h
  have hcycle : (advanceCursor eps.length)^[eps.length] i = i % eps.length := by
    rw [advanceCursor_iterate eps.length i eps.length hpos, Nat.add_mod_right]
  refine ⟨rfl, hcycle, ?_, ?_⟩
  · rw [hcycle]
    unfold currentEp
    rw [Nat.mod_mod_of_dvd i dvd_rfl]
  · rw [advanceCursor_iterate eps.length i k hk1]
    intro heq
    have hkk : k % eps.length = k := Nat.mod_eq_of_lt hk2
    have hik : (i + k) % eps.length = (i % eps.length + k) % eps.length := by
      conv_lhs => rw [Nat.add_mod, hkk]
    have hr : i % eps.length < eps.length := Nat.mod_lt i hpos
    rw [hik] at heq
    by_cases hlt : i % eps.length + k < eps.length
    · rw [Nat.mod_eq_of_lt hlt] at heq
      omega
    · have hge : eps.length ≤ i % eps.length + k := by omega
      rw [Nat.mod_eq_sub_mod hge,
        Nat.mod_eq_of_lt (by omega : i % eps.length + k - eps.length < eps.length)] at heq
      omega

/-- C6 witness: on the two-episode feed `[A, B]`, two advances return the
cursor to slot 0 and `current()` to episode A, and a single advance does
not. -/
theorem c6_queue_cycles_witness :
    (advanceCursor ([epA, epB] : List Episode).length)^[([epA, epB] : List Episode).length] 0
      = 0 % ([epA, epB] : List Episode).length ∧
    currentEp [epA, epB]
        ((advanceCursor ([epA, epB] : List Episode).length)^[([epA, epB] : List Episode).length] 0)
      = currentEp [epA, epB] 0 ∧
    ¬ (advanceCursor ([epA, epB] : List Episode).length)^[1] 0
        = 0 % ([epA, epB] : List Episode).length :=
  ⟨(c6_queue_cycles [epA, epB] 0 1 (by decide) (by decide) (by decide)).2.1,
   (c6_queue_cycles [epA, epB] 0 1 (by decide) (by decide) (by decide)).2.2.1,
   (c6_queue_cycles [epA, epB] 0 1 (by decide) (by decide) (by decide)).2.2.2⟩

end HLBot

namespace HLBot

/-- A non-empty episode list always yields a current episode. -/
theorem currentEp_isSome (eps : List Episode) (i : Nat) (h : eps.length ≠ 0) :
    ∃ ep, currentEp eps i = some ep := by
  unfold currentEp
  exact ⟨_, List.getElem?_eq_getElem (Nat.mod_lt i (Nat.pos_of_ne_zero h))⟩

/-- A successful unlocked `playCurrent` on a non-empty queue spawns exactly
one new pipeline at the saved offset for the episode under the unchanged
cursor, arms one watchdog, and clears the empty-pause flag. -/
theorem playCurrent_spawn (st : BotState)
    (hlock : st.playLock = false) (hne : st.episodes.length ≠ 0) :
    (playCurrent true st).lastSpawnOffsetMs = some st.resumeOffsetMs ∧
    (playCurrent true st).resumeOffsetMs = st.resumeOffsetMs ∧
    (playCurrent true st).episodeIndex = st.episodeIndex ∧
    (playCurrent true st).episodes = st.episodes ∧
    (playCurrent true st).currentEpisode = currentEp st.episodes st.episodeIndex ∧
    (playCurrent true st).ffmpegProc = some st.nextProcId ∧
    (playCurrent true st).liveProcs = st.liveProcs ++ [st.nextProcId] ∧
    (playCurrent true st).watchdogs
      = st.watchdogs ++ [{ seg := st.nextSeg, gotData := false }] ∧
    (playCurrent true st).isPausedDueToEmpty = false ∧
    (playCurrent true st).playerStatus = PlayerStatus.Playing := by
  obtain ⟨ep, hep⟩ := currentEp_isSome st.episodes st.episodeIndex hne
  unfold playCurrent
  rw [if_neg (by rw [hlock]; exact Bool.false_ne_true)]
  simp [hne, hep]

/-- The offset after any `playCurrent` call is either untouched or reset
to zero (the fetch-error catch block). -/
theorem playCurrent_offset_cases (fetchOk : Bool) (st : BotState) :
    (playCurrent fetchOk st).resumeOffsetMs = st.resumeOffsetMs ∨
    (playCurrent fetchOk st).resumeOffsetMs = 0 := by
  by_cases h1 : st.playLock
  · left
    unfold playCurrent
    rw [if_pos h1]
  · unfold playCurrent
    rw [if_neg h1]
    by_cases h2 : st.episodes.length = 0
    · left; simp [h2]
    · by_cases h3 : fetchOk
      · subst h3; left; simp [h2]
      · right; simp [h2, h3]

end HLBot

namespace HLBot

/-- C1 (amended): on a listener rejoin while paused-due-to-empty, the
resume-vs-restart decision compares the accumulated `resumeOffsetMs` of
the current episode against `RESUME_RESTART_THRESHOLD_MS` — not the paused
duration, which the code never records.  Below the threshold the pipeline
is respawned for the same current episode at the saved offset; at or above
it the offset is reset to 0 and the episode restarts from the beginning. -/
theorem c1_resume_restart_by_offset (target : String) (st : BotState)
    (now : Int) (humans : Nat)
    (hpe : st.isPausedDueToEmpty = true)
    (hstart : st.hasStartedPlayback = true)
    (hlock : st.playLock = false)
    (hne : st.episodes.length ≠ 0)
    (hh : humans ≠ 0) :
    (voiceStateUpdate target (some target) humans now true st).lastSpawnOffsetMs
      = some (if RESUME_RESTART_THRESHOLD_MS ≤ st.resumeOffsetMs
              then 0 else st.resumeOffsetMs) ∧
    (voiceStateUpdate target (some target) humans now true st).resumeOffsetMs
      = (if RESUME_RESTART_THRESHOLD_MS ≤ st.resumeOffsetMs
         then 0 else st.resumeOffsetMs) ∧
    (voiceStateUpdate target (some target) humans now true st).episodeIndex
      = st.episodeIndex ∧
    (voiceStateUpdate target (some target) humans now true st).currentEpisode
      = currentEp st.episodes st.episodeIndex := by
  simp only [voiceStateUpdate]
  rw [if_pos trivial, if_neg hh,
    if_neg (fun hc => Bool.noConfusion (hstart ▸ hc)), if_pos hpe]
  by_cases hth : RESUME_RESTART_THRESHOLD_MS ≤ st.resumeOffsetMs
  · simp only [if_pos hth]
    have h :=
      playCurrent_spawn { st with resumeOffsetMs := 0, isPausedDueToEmpty := false }
        hlock hne
    exact ⟨h.1, h.2.1, h.2.2.1, h.2.2.2.2.1⟩
  · simp only [if_neg hth]
    have h := playCurrent_spawn { st with isPausedDueToEmpty := false } hlock hne
    exact ⟨h.1, h.2.1, h.2.2.1, h.2.2.2.2.1⟩

/-- C1 witness: a rejoin on the short-pause state (offset 10000, below the
threshold) resumes the same episode at the saved offset. -/
theorem c1_resume_restart_by_offset_witness :
    (voiceStateUpdate "T" (some "T") 1 11001 true stPausedShort).lastSpawnOffsetMs
      = some (if RESUME_RESTART_THRESHOLD_MS ≤ stPausedShort.resumeOffsetMs
              then 0 else stPausedShort.resumeOffsetMs) ∧
    (voiceStateUpdate "T" (some "T") 1 11001 true stPausedShort).resumeOffsetMs
      = (if RESUME_RESTART_THRESHOLD_MS ≤ stPausedShort.resumeOffsetMs
         then 0 else stPausedShort.resumeOffsetMs) ∧
    (voiceStateUpdate "T" (some "T") 1 11001 true stPausedShort).episodeIndex
      = stPausedShort.episodeIndex ∧
    (voiceStateUpdate "T" (some "T") 1 11001 true stPausedShort).currentEpisode
      = currentEp stPausedShort.episodes stPausedShort.episodeIndex :=
  c1_resume_restart_by_offset "T" stPausedShort 11001 1
    (by decide) (by decide) (by decide) (by decide) (by decide)

/-- C8: a presence update reporting zero non-bot listeners while the
player is playing accumulates the elapsed time since segment start into
`resumeOffsetMs`, marks the state paused-due-to-empty, pauses the player,
kills the live pipeline and clears the handle, and neither advances the
episode cursor nor resets the offset. -/
theorem c8_pause_on_empty (target : String) (now : Int) (fetchOk : Bool)
    (st : BotState) (pid : Nat)
    (hplay : st.playerStatus = PlayerStatus.Playing)
    (hs : st.startedAtMs ≠ 0)
    (hle : st.startedAtMs ≤ now)
    (hproc : st.ffmpegProc = some pid) :
    (voiceStateUpdate target (some target) 0 now fetchOk st).resumeOffsetMs
      = st.resumeOffsetMs + (now - st.startedAtMs) ∧
    (voiceStateUpdate target (some target) 0 now fetchOk st).isPausedDueToEmpty
      = true ∧
    (voiceStateUpdate target (some target) 0 now fetchOk st).playerStatus
      = PlayerStatus.Paused ∧
    (voiceStateUpdate target (some target) 0 now fetchOk st).ffmpegProc = none ∧
    (voiceStateUpdate target (some target) 0 now fetchOk st).liveProcs
      = st.liveProcs.erase pid ∧
    (voiceStateUpdate target (some target) 0 now fetchOk st).episodeIndex
      = st.episodeIndex ∧
    (voiceStateUpdate target (some target) 0 now fetchOk st).currentEpisode
      = st.currentEpisode := by
  have helapsed : elapsedSinceStart now st = now - st.startedAtMs := by
    unfold elapsedSinceStart
    rw [if_neg hs]
    exact max_eq_right (by omega)
  unfold voiceStateUpdate
  simp [hplay, hproc, killProc, helapsed]

/-- C8 witness: the channel empties at t = 601000 while episode A has been
playing since t = 1000 with pipeline 0 live. -/
theorem c8_pause_on_empty_witness :
    (voiceStateUpdate "T" (some "T") 0 601000 true stPlayingA).resumeOffsetMs
      = stPlayingA.resumeOffsetMs + (601000 - stPlayingA.startedAtMs) ∧
    (voiceStateUpdate "T" (some "T") 0 601000 true stPlayingA).isPausedDueToEmpty
      = true ∧
    (voiceStateUpdate "T" (some "T") 0 601000 true stPlayingA).playerStatus
      = PlayerStatus.Paused ∧
    (voiceStateUpdate "T" (some "T") 0 601000 true stPlayingA).ffmpegProc = none ∧
    (voiceStateUpdate "T" (some "T") 0 601000 true stPlayingA).liveProcs
      = stPlayingA.liveProcs.erase 0 ∧
    (voiceStateUpdate "T" (some "T") 0 601000 true stPlayingA).episodeIndex
      = stPlayingA.episodeIndex ∧
    (voiceStateUpdate "T" (some "T") 0 601000 true stPlayingA).currentEpisode
      = stPlayingA.currentEpisode :=
  c8_pause_on_empty "T" 601000 true stPlayingA 0
    (by decide) (by decide) (by decide) (by decide)

end HLBot

namespace HLBot

/-- Killing the pipeline never touches the resume offset. -/
theorem killProc_resumeOffsetMs (st : BotState) :
    (killProc st).resumeOffsetMs = st.resumeOffsetMs := by
  unfold killProc
  split <;> rfl

/-- The elapsed-time clamp is never negative. -/
theorem elapsedSinceStart_nonneg (now : Int) (st : BotState) :
    0 ≤ elapsedSinceStart now st :=
  le_max_left 0 _

/-- Offset non-negativity is preserved by `playCurrent`. -/
theorem playCurrent_offset_nonneg (fetchOk : Bool) (st : BotState)
    (h0 : 0 ≤ st.resumeOffsetMs) :
    0 ≤ (playCurrent fetchOk st).resumeOffsetMs := by
  rcases playCurrent_offset_cases fetchOk st with h | h
  · rw [h]; exact h0
  · rw [h]

/-- A `playCurrent` call on a state whose offset is already zero leaves it
zero. -/
theorem playCurrent_offset_zero (fetchOk : Bool) (st : BotState)
    (h : st.resumeOffsetMs = 0) :
    (playCurrent fetchOk st).resumeOffsetMs = 0 := by
  rcases playCurrent_offset_cases fetchOk st with hc | hc
  · rw [hc]; exact h
  · rw [hc]

/-- Offset non-negativity is preserved by `loopPlay`. -/
theorem loopPlay_offset_nonneg (fetchOk : Bool) (st : BotState)
    (h0 : 0 ≤ st.resumeOffsetMs) :
    0 ≤ (loopPlay fetchOk st).resumeOffsetMs := by
  unfold loopPlay
  split
  · exact h0
  · exact playCurrent_offset_nonneg fetchOk st h0

/-- Offset non-negativity is preserved by the presence handler. -/
theorem voiceStateUpdate_offset_nonneg (target : String) (chanId : Option String)
    (humans : Nat) (now : Int) (fetchOk : Bool) (st : BotState)
    (h0 : 0 ≤ st.resumeOffsetMs) :
    0 ≤ (voiceStateUpdate target chanId humans now fetchOk st).resumeOffsetMs := by
  cases chanId with
  | none => exact h0
  | some cid =>
    unfold voiceStateUpdate
    dsimp only
    by_cases h1 : cid = target
    · rw [if_pos h1]
      by_cases h2 : humans = 0
      · rw [if_pos h2]
        by_cases h3 : st.playerStatus = PlayerStatus.Playing
        · rw [if_pos h3]
          dsimp only
          rw [killProc_resumeOffsetMs]
          exact add_nonneg h0 (elapsedSinceStart_nonneg now st)
        · rw [if_neg h3]; exact h0
      · rw [if_neg h2]
        by_cases h4 : st.hasStartedPlayback = false
        · rw [if_pos h4]
          exact loopPlay_offset_nonneg fetchOk _ h0
        · rw [if_neg h4]
          by_cases h5 : st.isPausedDueToEmpty = true
          · rw [if_pos h5]
            by_cases h6 : RESUME_RESTART_THRESHOLD_MS ≤ st.resumeOffsetMs
            · rw [if_pos h6]
              exact playCurrent_offset_nonneg fetchOk _ (le_refl 0)
            · rw [if_neg h6]
              exact playCurrent_offset_nonneg fetchOk _ h0
          · rw [if_neg h5]
            by_cases h7 : st.playerStatus = PlayerStatus.Paused
            · rw [if_pos h7]
              by_cases h6 : RESUME_RESTART_THRESHOLD_MS ≤ st.resumeOffsetMs
              · rw [if_pos h6]
                exact playCurrent_offset_nonneg fetchOk _ (le_refl 0)
              · rw [if_neg h6]
                exact playCurrent_offset_nonneg fetchOk _ h0
            · rw [if_neg h7]; exact h0
    · rw [if_neg h1]; exact h0

/-- C7: `resumeOffsetMs` starts at 0, stays non-negative under every event,
is reset to exactly 0 by natural end-of-stream (when not paused), by an
explicit skip (with episodes loaded), and by an explicit restart (with a
current episode) — also by the error handler's identical recovery — and is
never reset by a pause: both the manual pause and the presence pause only
add the non-negative elapsed time. -/
theorem c7_offset_invariant (target : String) (e : Event) (st : BotState)
    (now : Int) (fetchOk : Bool)
    (h0 : 0 ≤ st.resumeOffsetMs) :
    0 ≤ (step target e st).resumeOffsetMs ∧
    initialState.resumeOffsetMs = 0 ∧
    (st.isPausedDueToEmpty = false → (playerIdle st).resumeOffsetMs = 0) ∧
    (st.isPausedDueToEmpty = false → (playerError st).resumeOffsetMs = 0) ∧
    (st.episodes.length ≠ 0 → (handleSkip fetchOk st).resumeOffsetMs = 0) ∧
    (st.currentEpisode ≠ none → (handleRestart fetchOk st).resumeOffsetMs = 0) ∧
    st.resumeOffsetMs ≤ (handlePause now st).resumeOffsetMs ∧
    (st.playerStatus = PlayerStatus.Playing →
      (voiceStateUpdate target (some target) 0 now fetchOk st).resumeOffsetMs
        = st.resumeOffsetMs + elapsedSinceStart now st) := by
  refine ⟨?_, rfl, ?_, ?_, ?_, ?_, ?_, ?_⟩
  · cases e with
    | voiceUpdate chanId humans n fo =>
        exact voiceStateUpdate_offset_nonneg target chanId humans n fo st h0
    | idleEvt =>
        show 0 ≤ (playerIdle st).resumeOffsetMs
        unfold playerIdle
        split
        · exact h0
        · exact le_refl (0 : Int)
    | errorEvt =>
        show 0 ≤ (playerError st).resumeOffsetMs
        unfold playerError
        split
        · exact h0
        · exact le_refl (0 : Int)
    | skipCmd fo =>
        show 0 ≤ (handleSkip fo st).resumeOffsetMs
        unfold handleSkip
        split
        · exact h0
        · exact playCurrent_offset_nonneg fo _ (le_refl (0 : Int))
    | restartCmd fo =>
        show 0 ≤ (handleRestart fo st).resumeOffsetMs
        unfold handleRestart
        split
        · exact h0
        · exact playCurrent_offset_nonneg fo _ (le_refl (0 : Int))
    | pauseCmd n =>
        show 0 ≤ (handlePause n st).resumeOffsetMs
        unfold handlePause
        split
        · dsimp only
          rw [killProc_resumeOffsetMs]
          exact add_nonneg h0 (elapsedSinceStart_nonneg n st)
        · exact h0
    | resumeCmd fo =>
        show 0 ≤ (handleResume fo st).resumeOffsetMs
        unfold handleResume
        split
        · exact h0
        · exact playCurrent_offset_nonneg fo _ h0
    | watchdogFire seg =>
        show 0 ≤ (fireWatchdog seg st).resumeOffsetMs
        unfold fireWatchdog
        split
        · exact h0
        · dsimp only
          split
          · exact le_refl (0 : Int)
          · exact h0
    | dataEvt seg n => exact h0
    | loopTimer fo => exact loopPlay_offset_nonneg fo st h0
    | feedRefresh raw =>
        show 0 ≤ (fetchEpisodes raw st).resumeOffsetMs
        unfold fetchEpisodes
        dsimp only
        split
        · exact h0
        · exact h0
  · intro h
    simp [playerIdle, h]
  · intro h
    simp [playerError, h]
  · intro hne
    unfold handleSkip
    rw [if_neg hne]
    exact playCurrent_offset_zero fetchOk _ rfl
  · intro hcc
    unfold handleRestart
    cases hcur : st.currentEpisode with
    | none => exact absurd hcur hcc
    | some ep =>
        dsimp only
        exact playCurrent_offset_zero fetchOk _ rfl
  · unfold handlePause
    split
    · dsimp only
      rw [killProc_resumeOffsetMs]
      exact le_add_of_nonneg_right (elapsedSinceStart_nonneg now st)
    · exact le_refl _
  · intro hp
    simp only [voiceStateUpdate]
    rw [if_pos trivial, if_pos trivial, if_pos hp]
    dsimp only
    rw [killProc_resumeOffsetMs]

/-- C7 witness: the invariant instantiated at the initial state. -/
theorem c7_offset_invariant_witness :
    0 ≤ (step "T" Event.idleEvt initialState).resumeOffsetMs :=
  (c7_offset_invariant "T" Event.idleEvt initialState 0 true (le_refl 0)).1

end HLBot
